import Mathlib

/-!
Verification of the SuperSmartMatch core scoring logic.

This file gives a shallow embedding, in Lean, of the match-scoring code of
the SuperSmartMatch service:

  * `utils/enhanced_sector_analyzer_v3.py` — the taxonomy classifier
    (`detect_enhanced_sector`), the compatibility resolver
    (`get_enhanced_compatibility_score`) and its data tables;
  * `algorithms/enhanced_matching_v3.py` — the weighted multi-factor scorer
    (`_calculate_v3_enhanced_match` and its component functions);
  * `algorithms/hybrid_matching.py` — the consensus combiner
    (`_calculate_hybrid_score`);
  * `algorithms/base_algorithm.py` — `validate_input` and `normalize_score`.

Python floats are modelled as exact rationals (`ℚ`), Python dicts as
structures or association lists, and the in-place dict update performed by
`validate_input` as explicit state passing.  Python's stable `sorted` is
modelled by a stable insertion sort.  All definitions are executable.
-/

namespace SuperSmartMatch

/-- Python's `needle in haystack` on strings: `chars` is a prefix test on
character lists. -/
def isPrefixChars : List Char → List Char → Bool
  | [], _ => true
  | _ :: _, [] => false
  | a :: as, b :: bs => a == b && isPrefixChars as bs

/-- Substring containment on character lists (Python `in` on strings). -/
def containsChars (needle : List Char) : List Char → Bool
  | [] => needle.isEmpty
  | b :: bs => isPrefixChars needle (b :: bs) || containsChars needle bs

/-- Python `needle in haystack` for strings. -/
def pyIn (needle haystack : String) : Bool :=
  containsChars needle.data haystack.data

/-- Python `str.lower()` (the texts used here are already lower case except
for ASCII letters, which `Char.toLower` handles). -/
def pyLower (s : String) : String := ⟨s.data.map Char.toLower⟩

/-- Python `str.strip()` — trim surrounding whitespace. -/
def pyStrip (s : String) : String :=
  ⟨((s.data.dropWhile Char.isWhitespace).reverse.dropWhile Char.isWhitespace).reverse⟩

/-- Python `' '.join(parts)`. -/
def joinSpace (parts : List String) : String := " ".intercalate parts

/-- Python `int(x)` — truncation toward zero of a rational. -/
def pyInt (q : ℚ) : ℤ := if 0 ≤ q then ⌊q⌋ else ⌈q⌉

/-- Deduplication keeping first occurrences; used to model Python `set`
intersection cardinality `len(set(a) & set(b))`. -/
def pyDedup (l : List String) : List String :=
  l.foldl (fun acc x => if acc.contains x then acc else acc ++ [x]) []

/-- `dataclass EnhancedSectorAnalysisResult` from
`utils/enhanced_sector_analyzer_v3.py`. -/
structure EnhancedSectorAnalysisResult where
  primary_sector : String
  sub_sector : String
  specific_job : String
  confidence : ℚ
  secondary_sectors : List String
  detected_keywords : List String
  job_level : String
  specialization_score : ℚ
  explanation : String
  deriving Repr, DecidableEq

/-- `self.enhanced_compatibility_matrix` of `EnhancedSectorAnalyzerV3`:
association list keyed by ordered pairs of sub-sector names. -/
def enhanced_compatibility_matrix : List ((String × String) × ℚ) :=
  [ (("comptabilite_generale", "comptabilite_generale"), 1.0),
    (("comptabilite_generale", "facturation"), 0.85),
    (("comptabilite_generale", "controle_gestion"), 0.75),
    (("comptabilite_generale", "paie_social"), 0.45),
    (("paie_social", "facturation"), 0.25),
    (("paie_social", "comptabilite_generale"), 0.45),
    (("paie_social", "administration_personnel"), 0.90),
    (("facturation", "paie_social"), 0.25),
    (("facturation", "comptabilite_generale"), 0.85),
    (("facturation", "commercial_terrain"), 0.60),
    (("assistance_juridique", "comptabilite_generale"), 0.30),
    (("assistance_juridique", "administration_personnel"), 0.55),
    (("assistance_juridique", "management_operationnel"), 0.15),
    (("management_operationnel", "paie_social"), 0.20),
    (("management_operationnel", "assistance_juridique"), 0.15),
    (("management_operationnel", "facturation"), 0.25),
    (("management_operationnel", "recrutement"), 0.70),
    (("commercial_terrain", "business_development"), 0.80),
    (("commercial_terrain", "facturation"), 0.60),
    (("commercial_terrain", "paie_social"), 0.10),
    (("recrutement", "administration_personnel"), 0.85),
    (("recrutement", "paie_social"), 0.60),
    (("recrutement", "management_operationnel"), 0.70),
    (("developpement", "comptabilite_generale"), 0.35),
    (("developpement", "management_operationnel"), 0.45),
    (("developpement", "paie_social"), 0.15) ]

/-- Python `dict.get(key)` on the compatibility matrix. -/
def matrixGet (k : String × String) : Option ℚ :=
  (enhanced_compatibility_matrix.find? (fun e => e.1 == k)).map (·.2)

/-- The sub-sector lookup step of `get_enhanced_compatibility_score`
(lines 454–460): direct lookup, then reversed lookup, then 0.3 fallback. -/
def baseCompatibility (cv_sub job_sub : String) : ℚ :=
  match matrixGet (cv_sub, job_sub) with
  | some v => v
  | none =>
    match matrixGet (job_sub, cv_sub) with
    | some v => v
    | none => 0.3

/-- `self.level_hierarchy`-style dict used by `_calculate_level_compatibility`
and the V3 scorer: `{'junior': 1, 'confirmé': 2, 'senior': 3, 'expert': 4}`
with `.get(level, 2)`. -/
def levelRank (level : String) : ℤ :=
  if level = "junior" then 1
  else if level = "confirmé" then 2
  else if level = "senior" then 3
  else if level = "expert" then 4
  else 2

/-- `EnhancedSectorAnalyzerV3._calculate_level_compatibility`. -/
def calculate_level_compatibility (cv_level job_level : String) : ℚ :=
  let diff := (levelRank cv_level - levelRank job_level).natAbs
  if diff = 0 then 1.0
  else if diff = 1 then 0.85
  else if diff = 2 then 0.65
  else 0.40

/-- `EnhancedSectorAnalyzerV3.get_enhanced_compatibility_score`. -/
def get_enhanced_compatibility_score
    (cv_analysis job_analysis : EnhancedSectorAnalysisResult) : ℚ :=
  if cv_analysis.specific_job = job_analysis.specific_job then 1.0
  else
    let base_score := baseCompatibility cv_analysis.sub_sector job_analysis.sub_sector
    let level_compatibility :=
      calculate_level_compatibility cv_analysis.job_level job_analysis.job_level
    let specialization_bonus :=
      min 0.15 ((cv_analysis.specialization_score + job_analysis.specialization_score) / 2 * 0.15)
    let final_score := base_score * level_compatibility + specialization_bonus
    min 1.0 (max 0.0 final_score)

/-- One specific-job entry of `self.sector_hierarchy` (fields in source
order; `exclude_combinations` is `[]` when the Python dict omits the key,
matching `job_config.get('exclude_combinations', [])`). -/
structure JobConfig where
  name : String
  keywords : List String
  required_combinations : List (List String)
  exclude_combinations : List (List String)
  level_indicators : List (String × List String)
  skills : List String
  deriving Repr, DecidableEq

/-- `self.sector_hierarchy` of `EnhancedSectorAnalyzerV3.__init__`:
sector → sub-sector → specific jobs, in declaration order. -/
def sector_hierarchy : List (String × List (String × List JobConfig)) :=
  [ ("comptabilite_finance",
     [ ("comptabilite_generale",
        [ ⟨"assistant_comptable",
           ["assistant comptable", "aide comptable", "assistant comptabilité"],
           [["assistant", "comptable"]], [],
           [("junior", ["assistant", "aide"]), ("confirmé", ["comptable"])],
           ["saisie comptable", "sage", "facturation", "rapprochement bancaire"]⟩,
          ⟨"comptable",
           ["comptable", "accounting", "comptabilité générale"],
           [["comptable"], ["accounting"]],
           [["assistant", "comptable"], ["gestionnaire", "paie"]],
           [("confirmé", ["comptable"]), ("senior", ["responsable comptable"])],
           ["bilan", "compte de résultat", "erp", "liasses fiscales"]⟩,
          ⟨"expert_comptable",
           ["expert-comptable", "expert comptable", "cabinet comptable"],
           [["expert", "comptable"]], [],
           [("expert", ["expert"])],
           ["audit", "conseil", "création entreprise", "optimisation fiscale"]⟩ ]),
       ("paie_social",
        [ ⟨"gestionnaire_paie",
           ["gestionnaire de paie", "gestionnaire paie", "paie", "bulletin de paie"],
           [["gestionnaire", "paie"], ["paie"]], [],
           [("confirmé", ["gestionnaire"]), ("senior", ["responsable paie"])],
           ["dads", "urssaf", "charges sociales", "silae", "paie sage"]⟩,
          ⟨"assistant_paie",
           ["assistant paie", "aide à la paie"],
           [["assistant", "paie"]], [],
           [("junior", ["assistant"])],
           ["saisie paie", "pointage", "variables de paie"]⟩ ]),
       ("facturation",
        [ ⟨"assistant_facturation",
           ["assistant facturation", "facturière", "facturation"],
           [["assistant", "facturation"], ["facturation"]], [],
           [("junior", ["assistant"]), ("confirmé", ["facturière"])],
           ["emission factures", "relances clients", "recouvrement"]⟩,
          ⟨"responsable_facturation",
           ["responsable facturation", "chef facturation"],
           [["responsable", "facturation"]], [],
           [("senior", ["responsable", "chef"])],
           ["suivi ca", "impayés", "reporting commercial"]⟩ ]),
       ("controle_gestion",
        [ ⟨"controleur_gestion",
           ["contrôleur de gestion", "controle de gestion", "controlling"],
           [["contrôleur", "gestion"], ["controle", "gestion"]], [],
           [("confirmé", ["contrôleur"]), ("senior", ["directeur contrôle"])],
           ["budget", "reporting", "business plan", "tableaux de bord"]⟩ ]) ]),
    ("ressources_humaines",
     [ ("recrutement",
        [ ⟨"chargé_recrutement",
           ["chargé de recrutement", "recruteur", "talent acquisition"],
           [["chargé", "recrutement"], ["recruteur"]], [],
           [("confirmé", ["chargé"]), ("senior", ["responsable recrutement"])],
           ["sourcing", "entretien", "linkedin recruiter", "assessment"]⟩,
          ⟨"assistant_rh",
           ["assistant rh", "assistant ressources humaines"],
           [["assistant", "rh"], ["assistant", "ressources"]], [],
           [("junior", ["assistant"])],
           ["administration personnel", "dossiers employés", "onboarding"]⟩ ]),
       ("administration_personnel",
        [ ⟨"gestionnaire_rh",
           ["gestionnaire rh", "gestionnaire ressources humaines", "rh généraliste"],
           [["gestionnaire", "rh"], ["rh", "généraliste"]], [],
           [("confirmé", ["gestionnaire"]), ("senior", ["responsable rh"])],
           ["sirh", "formation", "entretiens annuels", "droit social"]⟩ ]) ]),
    ("commercial_vente",
     [ ("vente_terrain",
        [ ⟨"commercial_terrain",
           ["commercial terrain", "commercial itinérant", "vendeur terrain"],
           [["commercial", "terrain"], ["vendeur", "terrain"]], [],
           [("confirmé", ["commercial"]), ("senior", ["responsable commercial"])],
           ["prospection", "négociation", "crm", "fidélisation"]⟩,
          ⟨"technico_commercial",
           ["technico-commercial", "technico commercial", "ingénieur commercial"],
           [["technico", "commercial"], ["ingénieur", "commercial"]], [],
           [("confirmé", ["technico"]), ("senior", ["responsable technico"])],
           ["solution technique", "avant-vente", "support client"]⟩ ]),
       ("business_development",
        [ ⟨"business_developer",
           ["business developer", "business development", "développeur commercial"],
           [["business", "developer"], ["business", "development"]], [],
           [("confirmé", ["business"]), ("senior", ["head of business"])],
           ["partenariats", "stratégie commerciale", "market expansion"]⟩ ]) ]),
    ("juridique_legal",
     [ ("assistance_juridique",
        [ ⟨"assistant_juridique",
           ["assistant juridique", "assistant legal", "secrétaire juridique"],
           [["assistant", "juridique"], ["assistant", "legal"]], [],
           [("junior", ["assistant"]), ("confirmé", ["secrétaire juridique"])],
           ["rédaction courrier", "veille juridique", "gestion dossiers"]⟩,
          ⟨"juriste",
           ["juriste", "legal counsel", "conseiller juridique"],
           [["juriste"], ["legal", "counsel"]], [],
           [("confirmé", ["juriste"]), ("senior", ["juriste senior"])],
           ["contrats", "contentieux", "compliance", "droit des affaires"]⟩ ]) ]),
    ("management_direction",
     [ ("management_operationnel",
        [ ⟨"chef_equipe",
           ["chef d\x27équipe", "team leader", "responsable équipe"],
           [["chef", "équipe"], ["team", "leader"], ["responsable", "équipe"]], [],
           [("confirmé", ["chef"]), ("senior", ["responsable"])],
           ["encadrement", "coordination", "planning", "objectifs"]⟩,
          ⟨"manager",
           ["manager", "responsable service", "chef de service"],
           [["manager"], ["responsable", "service"], ["chef", "service"]],
           [["assistant"], ["gestionnaire", "paie"]],
           [("senior", ["manager", "responsable"])],
           ["management", "stratégie", "reporting", "budget équipe"]⟩,
          ⟨"directeur",
           ["directeur", "director", "directrice"],
           [["directeur"], ["director"]], [],
           [("expert", ["directeur"])],
           ["vision stratégique", "leadership", "développement", "p&l"]⟩ ]) ]),
    ("informatique_tech",
     [ ("developpement",
        [ ⟨"developpeur_junior",
           ["développeur junior", "développeur débutant", "junior developer"],
           [["développeur", "junior"], ["developer", "junior"]], [],
           [("junior", ["junior", "débutant"])],
           ["programmation", "git", "debugging", "frameworks"]⟩,
          ⟨"developpeur",
           ["développeur", "developer", "programmeur"],
           [["développeur"], ["developer"], ["programmeur"]],
           [["développeur", "junior"]],
           [("confirmé", ["développeur"]), ("senior", ["senior developer"])],
           ["architecture", "apis", "databases", "devops"]⟩ ]) ]) ]

/-- One entry of `self.exclusion_rules`. -/
structure ExclusionRule where
  name : String
  if_contains : List String
  exclude_sectors : List String
  reason : String
  deriving Repr, DecidableEq

/-- `self.exclusion_rules` of `EnhancedSectorAnalyzerV3.__init__`. -/
def exclusion_rules : List ExclusionRule :=
  [ ⟨"assistant_facturation_not_management",
     ["assistant", "facturation"], ["management_direction"],
     "Assistant facturation n\x27est pas du management"⟩,
    ⟨"gestionnaire_paie_not_management",
     ["gestionnaire", "paie"], ["management_direction"],
     "Gestionnaire de paie est RH, pas management"⟩,
    ⟨"assistant_juridique_not_management",
     ["assistant", "juridique"], ["management_direction"],
     "Assistant juridique n\x27est pas du management"⟩ ]

/-- One value of the `job_scores` dict built by `detect_enhanced_sector`
(the dict key `job_name` is kept as a field; job names are unique in the
hierarchy, and Python dicts iterate in insertion order, so the dict is
modelled as a list in hierarchy order). -/
structure JobScoreEntry where
  job_name : String
  sector : String
  sub_sector : String
  score : ℚ
  keywords : List String
  job_level : String
  specialization_score : ℚ
  deriving Repr, DecidableEq

/-- The body of the per-job loop of `detect_enhanced_sector` (steps 1–7):
returns `none` when the job is excluded or no required combination is found
(no `job_scores` entry is created), and the scored entry otherwise. -/
def scoreJob (text_normalized : String) (sector sub_sector : String)
    (jc : JobConfig) : Option JobScoreEntry :=
  let combo := jc.required_combinations.find?
      (fun c => c.all (fun kw => pyIn (pyLower kw) text_normalized))
  let excluded :=
    jc.exclude_combinations.any
      (fun c => c.all (fun kw => pyIn (pyLower kw) text_normalized)) ||
    exclusion_rules.any (fun r =>
      r.if_contains.all (fun kw => pyIn (pyLower kw) text_normalized) &&
      r.exclude_sectors.contains sector)
  if excluded then none
  else
    match combo with
    | none => none
    | some c =>
      let matchedKeywords := jc.keywords.filter (fun kw => pyIn (pyLower kw) text_normalized)
      let matchedSkills := jc.skills.filter (fun sk => pyIn (pyLower sk) text_normalized)
      let detected := c ++ matchedKeywords ++ matchedSkills
      let levelFound := jc.level_indicators.find?
          (fun li => li.2.any (fun ind => pyIn (pyLower ind) text_normalized))
      let job_level := match levelFound with | some li => li.1 | none => "confirmé"
      let levelBonus : ℚ := match levelFound with | some _ => 0.5 | none => 0
      let score : ℚ :=
        3.0 + 1.5 * matchedKeywords.length + 1.0 * matchedSkills.length + levelBonus
      let specialization :=
        min 1.0 ((matchedSkills.length : ℚ) / ((max jc.skills.length 1 : ℕ) : ℚ)
                 + (detected.length : ℚ) / 10)
      some ⟨jc.name, sector, sub_sector, score, detected, job_level, specialization⟩

/-- The triple loop of `detect_enhanced_sector` over
sector → sub-sector → job, in declaration order. -/
def allJobEntries (text_normalized : String) : List JobScoreEntry :=
  sector_hierarchy.flatMap (fun sec =>
    sec.2.flatMap (fun sub =>
      sub.2.filterMap (scoreJob text_normalized sec.1 sub.1)))

/-- Stable descending insertion used to model Python's stable
`sorted(..., key=score, reverse=True)`: a later element is placed after all
already-inserted elements of greater-or-equal score. -/
def sortInsert (x : JobScoreEntry) : List JobScoreEntry → List JobScoreEntry
  | [] => [x]
  | y :: ys => if y.score < x.score then x :: y :: ys else y :: sortInsert x ys

/-- Python `sorted(job_scores.items(), key=lambda x: x[1]['score'], reverse=True)`. -/
def sortedDesc (l : List JobScoreEntry) : List JobScoreEntry :=
  l.foldl (fun acc x => sortInsert x acc) []

/-- The "no signal" result returned by `detect_enhanced_sector` for empty
text and for texts matching no job. -/
def inconnuResult (expl : String) : EnhancedSectorAnalysisResult :=
  ⟨"inconnu", "inconnu", "inconnu", 0.0, [], [], "inconnu", 0.0, expl⟩

/-- `EnhancedSectorAnalyzerV3.detect_enhanced_sector` (the unused `context`
parameter of the source is kept). -/
def detect_enhanced_sector (text : String) (_context : String) :
    EnhancedSectorAnalysisResult :=
  if text = "" then inconnuResult "Aucun texte fourni"
  else
    let text_normalized := pyLower text
    let job_scores := allJobEntries text_normalized
    match sortedDesc job_scores with
    | [] => inconnuResult "Aucun métier spécifique détecté"
    | best :: rest =>
      let total_score := (job_scores.map (·.score)).sum
      let confidence := min 1.0 (best.score / max total_score 1)
      let secondary_threshold := best.score * 0.3
      let secondary_sectors :=
        ((rest.take 2).filter
          (fun d => decide (secondary_threshold ≤ d.score) && d.sector != best.sector)).map
          (·.sector)
      let explanation := "Métier \x27" ++ best.job_name ++ "\x27 détecté dans \x27"
          ++ best.sub_sector ++ "\x27 (secteur: " ++ best.sector ++ ") avec "
          ++ toString best.keywords.length ++ " indicateurs"
      ⟨best.sector, best.sub_sector, best.job_name, confidence,
       secondary_sectors, best.keywords.take 5, best.job_level,
       best.specialization_score, explanation⟩

/-- Candidate record (Python dict) as consumed by
`EnhancedMatchingV3Algorithm`.  `competences` is an `Option` because
`validate_input` distinguishes (and mutates) a dict missing that key; the
other fields model `dict.get(key, default)` by carrying the default. -/
structure CandidateData where
  titre_poste : String
  missions : List String
  competences : Option (List String)
  secteur : String
  description : String
  annees_experience : ℚ
  adresse : String
  deriving Repr, DecidableEq

/-- Job-offer record (Python dict) as consumed by
`EnhancedMatchingV3Algorithm`. -/
structure JobData where
  titre : String
  description : String
  missions : List String
  competences : List String
  secteur : String
  profil_recherche : String
  localisation : String
  deriving Repr, DecidableEq

/-- `BaseMatchingAlgorithm.validate_input`, with the in-place dict update
made explicit: the returned candidate record is the (possibly mutated)
input dict.  The `isinstance` checks of the source always succeed for
well-typed records; the empty-jobs check happens before the mutation. -/
def validate_input (candidate_data : CandidateData) (jobs_data : List JobData) :
    Bool × CandidateData :=
  if jobs_data.isEmpty then (false, candidate_data)
  else
    match candidate_data.competences with
    | none => (true, { candidate_data with competences := some [] })
    | some _ => (true, candidate_data)

/-- `BaseMatchingAlgorithm.normalize_score`. -/
def normalize_score (score : ℚ) : ℚ := max 0.0 (min 100.0 (score * 100))

/-- `EnhancedMatchingV3Algorithm._extract_candidate_text`. -/
def extract_candidate_text (c : CandidateData) : String :=
  let parts : List String :=
    (if c.titre_poste ≠ "" then [c.titre_poste ++ " " ++ c.titre_poste] else []) ++
    (if c.missions ≠ [] then c.missions.map (fun m => m ++ " " ++ m) else []) ++
    (if c.competences.getD [] ≠ [] then [joinSpace (c.competences.getD [])] else []) ++
    (if c.secteur ≠ "" then [c.secteur] else []) ++
    (if c.description ≠ "" then [c.description] else [])
  joinSpace parts

/-- `EnhancedMatchingV3Algorithm._extract_job_text`. -/
def extract_job_text (j : JobData) : String :=
  let parts : List String :=
    (if j.titre ≠ "" then [j.titre ++ " " ++ j.titre] else []) ++
    (if j.description ≠ "" then [j.description ++ " " ++ j.description] else []) ++
    (if j.missions ≠ [] then j.missions.map (fun m => m ++ " " ++ m) else []) ++
    (if j.competences ≠ [] then [joinSpace j.competences] else []) ++
    (if j.secteur ≠ "" then [j.secteur] else []) ++
    (if j.profil_recherche ≠ "" then [j.profil_recherche] else [])
  joinSpace parts

/-- `EnhancedMatchingV3Algorithm._calculate_level_compatibility_bonus`. -/
def calculate_level_compatibility_bonus (candidate_level job_level : String) : ℚ :=
  let diff := (levelRank candidate_level - levelRank job_level).natAbs
  if diff = 0 then 0.25
  else if diff = 1 then 0.15
  else if diff = 2 then 0.05
  else 0.0

/-- `EnhancedMatchingV3Algorithm._calculate_job_specificity_match`. -/
def calculate_job_specificity_match
    (candidate_analysis job_analysis : EnhancedSectorAnalysisResult) : ℚ :=
  if candidate_analysis.specific_job = job_analysis.specific_job then 1.0
  else if candidate_analysis.sub_sector = job_analysis.sub_sector then
    let base_score : ℚ := 0.75
    let level_bonus :=
      calculate_level_compatibility_bonus candidate_analysis.job_level job_analysis.job_level
    min 1.0 (base_score + level_bonus)
  else if candidate_analysis.primary_sector = job_analysis.primary_sector then 0.50
  else 0.25

/-- `EnhancedMatchingV3Algorithm._calculate_level_gap_penalty`. -/
def calculate_level_gap_penalty (candidate_level job_level : String) : ℚ :=
  let gap := levelRank job_level - levelRank candidate_level
  if gap ≤ 0 then 0.1
  else if gap = 1 then 0.0
  else if gap = 2 then -0.15
  else -0.25

/-- `EnhancedMatchingV3Algorithm._calculate_v3_experience_relevance`. -/
def calculate_v3_experience_relevance (candidate_data : CandidateData)
    (candidate_analysis job_analysis : EnhancedSectorAnalysisResult)
    (_sector_compatibility : ℚ) : ℚ :=
  let years_experience := candidate_data.annees_experience
  let base_score : ℚ :=
    if years_experience = 0 then 0.2
    else if years_experience ≤ 2 then 0.5
    else if years_experience ≤ 5 then 0.8
    else 1.0
  let specificity_multiplier : ℚ :=
    if candidate_analysis.specific_job = job_analysis.specific_job then 1.0
    else if candidate_analysis.sub_sector = job_analysis.sub_sector then 0.85
    else if candidate_analysis.primary_sector = job_analysis.primary_sector then 0.65
    else 0.30
  let specialization_bonus := candidate_analysis.specialization_score * 0.15
  let level_adjustment :=
    calculate_level_gap_penalty candidate_analysis.job_level job_analysis.job_level
  let final_relevance := base_score * specificity_multiplier
      + specialization_bonus + level_adjustment
  min 1.0 (max 0.0 final_relevance)

/-- The `context_bonus` of `_calculate_v3_skills_match`. -/
def skillsContextBonus
    (candidate_analysis job_analysis : EnhancedSectorAnalysisResult) : ℚ :=
  if candidate_analysis.specific_job = job_analysis.specific_job then 0.2
  else if candidate_analysis.sub_sector = job_analysis.sub_sector then 0.15
  else if candidate_analysis.primary_sector = job_analysis.primary_sector then 0.1
  else 0.0

/-- The `quantity_bonus` of `_calculate_v3_skills_match`. -/
def skillsQuantityBonus (candidate_skills job_skills : List String) : ℚ :=
  if job_skills.length < candidate_skills.length then
    min 0.1 ((candidate_skills.length - job_skills.length : ℕ) * 0.02)
  else 0

/-- `EnhancedMatchingV3Algorithm._calculate_v3_skills_match`. -/
def calculate_v3_skills_match (candidate_skills job_skills : List String)
    (candidate_analysis job_analysis : EnhancedSectorAnalysisResult) : ℚ :=
  if job_skills = [] then 0.7
  else if candidate_skills = [] then 0.1
  else
    let candidate_skills_norm := candidate_skills.map (fun s => pyStrip (pyLower s))
    let job_skills_norm := job_skills.map (fun s => pyStrip (pyLower s))
    let exact_matches :=
      ((pyDedup candidate_skills_norm).filter (fun s => job_skills_norm.contains s)).length
    let partial_matches : ℚ := 0.5 *
      ((job_skills_norm.filter (fun js => candidate_skills_norm.any (fun cs =>
          (decide (3 < js.length) && pyIn js cs) ||
          (decide (3 < cs.length) && pyIn cs js)))).length : ℚ)
    let total_matches : ℚ := (exact_matches : ℚ) + partial_matches
    let matchFrac := total_matches / (job_skills_norm.length : ℚ)
    let final_score := matchFrac
        + skillsContextBonus candidate_analysis job_analysis
        + skillsQuantityBonus candidate_skills job_skills
    min 1.0 final_score

/-- `EnhancedMatchingV3Algorithm._calculate_location_match`. -/
def calculate_location_match (candidate_data : CandidateData) (job_data : JobData) : ℚ :=
  let candidate_location := pyLower candidate_data.adresse
  let job_location := pyLower job_data.localisation
  if pyIn "remote" job_location || pyIn "télétravail" job_location then 1.0
  else
    let major_cities := ["paris", "lyon", "marseille", "toulouse", "nice", "nantes"]
    if major_cities.any (fun city => pyIn city candidate_location && pyIn city job_location)
    then 1.0
    else if (["paris", "ile-de-france"].any (fun t => pyIn t candidate_location)) &&
            (["paris", "ile-de-france"].any (fun t => pyIn t job_location)) then 0.9
    else 0.6

/-- `self.weights_v3` of `EnhancedMatchingV3Algorithm.__init__`. -/
def weights_v3_job_specificity_match : ℚ := 0.35
def weights_v3_sector_compatibility : ℚ := 0.25
def weights_v3_experience_relevance : ℚ := 0.20
def weights_v3_skills_match : ℚ := 0.15
def weights_v3_location_match : ℚ := 0.05

/-- The numeric core of `EnhancedMatchingV3Algorithm._calculate_v3_enhanced_match`:
the five factor scores and the weighted `final_score` before normalization
(the source additionally builds explanation/recommendation dictionaries from
these same values; the returned `matching_score` is `normalize_score` of
this sum). -/
def calculate_v3_final_score (candidate_data : CandidateData) (job_data : JobData)
    (candidate_analysis job_analysis : EnhancedSectorAnalysisResult) : ℚ :=
  let job_specificity_score :=
    calculate_job_specificity_match candidate_analysis job_analysis
  let sector_compatibility :=
    get_enhanced_compatibility_score candidate_analysis job_analysis
  let experience_relevance := calculate_v3_experience_relevance
      candidate_data candidate_analysis job_analysis sector_compatibility
  let skills_match := calculate_v3_skills_match
      (candidate_data.competences.getD []) job_data.competences
      candidate_analysis job_analysis
  let location_match := calculate_location_match candidate_data job_data
  job_specificity_score * weights_v3_job_specificity_match +
    sector_compatibility * weights_v3_sector_compatibility +
    experience_relevance * weights_v3_experience_relevance +
    skills_match * weights_v3_skills_match +
    location_match * weights_v3_location_match

/-- The `matching_score` field produced by `_calculate_v3_enhanced_match`. -/
def calculate_v3_matching_score (candidate_data : CandidateData) (job_data : JobData)
    (candidate_analysis job_analysis : EnhancedSectorAnalysisResult) : ℚ :=
  normalize_score
    (calculate_v3_final_score candidate_data job_data candidate_analysis job_analysis)

/-- One entry of the result list of
`EnhancedMatchingV3Algorithm.calculate_matches`: the job record (`job.copy()`,
never the input object) together with the fields of the match dict used by
the claims. -/
structure MatchOutput where
  job : JobData
  matching_score : ℚ
  job_specificity_match : ℚ
  sector_compatibility : ℚ
  candidate_analysis : EnhancedSectorAnalysisResult
  job_analysis : EnhancedSectorAnalysisResult
  deriving Repr, DecidableEq

/-- Stable descending insertion on match outputs (Python's stable
`results.sort(key=lambda x: x['matching_score'], reverse=True)`). -/
def sortInsertMatch (x : MatchOutput) : List MatchOutput → List MatchOutput
  | [] => [x]
  | y :: ys =>
    if y.matching_score < x.matching_score then x :: y :: ys
    else y :: sortInsertMatch x ys

/-- Stable descending sort on match outputs. -/
def sortedDescMatch (l : List MatchOutput) : List MatchOutput :=
  l.foldl (fun acc x => sortInsertMatch x acc) []

/-- `EnhancedMatchingV3Algorithm.calculate_matches`, with the mutation of
the candidate dict performed by `validate_input` made explicit: the second
component of the result is the candidate record as the caller observes it
afterwards.  The per-text memoization cache (`self._analysis_cache`) only
stores values of the pure `detect_enhanced_sector` keyed by the same text,
so it is modelled by recomputation; job dicts are only read and copied. -/
def calculate_matches (candidate_data : CandidateData) (jobs_data : List JobData) :
    List MatchOutput × CandidateData :=
  match validate_input candidate_data jobs_data with
  | (false, c) => ([], c)
  | (true, c) =>
    let candidate_analysis := detect_enhanced_sector (extract_candidate_text c) "cv"
    let results := jobs_data.map (fun job =>
      let job_analysis := detect_enhanced_sector (extract_job_text job) "job"
      { job := job
        matching_score := calculate_v3_matching_score c job candidate_analysis job_analysis
        job_specificity_match :=
          normalize_score (calculate_job_specificity_match candidate_analysis job_analysis)
        sector_compatibility :=
          normalize_score (get_enhanced_compatibility_score candidate_analysis job_analysis)
        candidate_analysis := candidate_analysis
        job_analysis := job_analysis : MatchOutput })
    (sortedDescMatch results, c)

/-- `HybridMatchingAlgorithm._calculate_hybrid_score` from
`algorithms/hybrid_matching.py`.  Each argument is the `matching_score` of
the corresponding sub-algorithm's result for the job, or `none` when that
algorithm returned no result for it (`enhanced_job` etc. being `None`).
The source compares `std_dev = variance ** 0.5` against 10 and 15; as
`variance ≥ 0`, this is modelled exactly by comparing `variance` against
100 and 225. -/
def calculate_hybrid_score (enhanced_job semantic_job smart_job : Option ℚ) : ℤ :=
  let enhanced_score := enhanced_job.getD 0
  let semantic_score := semantic_job.getD 0
  let smart_score := smart_job.getD 0
  let weighted_score : ℚ :=
    enhanced_score * 0.4 + semantic_score * 0.35 + smart_score * 0.25
  let scores := [enhanced_score, semantic_score, smart_score].filter (fun s => decide (0 < s))
  let weighted_total : ℚ :=
    if 2 ≤ scores.length then
      let avg_score := scores.sum / (scores.length : ℚ)
      let variance := (scores.map (fun score => (score - avg_score) ^ 2)).sum
          / (scores.length : ℚ)
      let consensus_bonus : ℚ :=
        if variance < 100 then 5 else if variance < 225 then 3 else 0
      weighted_score + consensus_bonus
    else weighted_score
  min 100 (max 0 (pyInt weighted_total))

/-- The combined score the claim describes (spec wording, for contrast with
`calculate_hybrid_score`): the weighted average of the scores of the
algorithms that produced a result, with the participating algorithms'
weights renormalized, and `none` (a "no data" signal) when every algorithm
is missing. -/
def claimedConsensusCombine (enhanced_job semantic_job smart_job : Option ℚ) : Option ℚ :=
  let entries : List (Option ℚ × ℚ) :=
    [(enhanced_job, 0.4), (semantic_job, 0.35), (smart_job, 0.25)]
  let present := entries.filterMap (fun e => e.1.map (fun s => (s, e.2)))
  if present.isEmpty then none
  else some ((present.map (fun p => p.1 * p.2)).sum / (present.map (·.2)).sum)

/-! ### Concrete inputs used by counterexamples and witnesses -/

/-- Candidate record of the repository's own test case
`Gestionnaire_Paie_vs_Assistant_Facturation` in `test_v3_validation.py`. -/
def candPaie : CandidateData :=
  ⟨"Gestionnaire de Paie",
   ["Gestion de la paie mensuelle pour 150 salariés",
    "Établissement des bulletins de paie",
    "Déclarations sociales URSSAF",
    "Suivi des charges sociales"],
   some ["Sage Paie", "DADS", "Urssaf", "Charges sociales", "Bulletin de paie"],
   "ressources humaines", "", 3, ""⟩

/-- Job record of the repository's own test case
`Gestionnaire_Paie_vs_Assistant_Facturation` in `test_v3_validation.py`. -/
def jobFact : JobData :=
  ⟨"Assistant Facturation",
   "Assistant facturation pour gestion clientèle",
   ["Émission des factures clients", "Suivi des encaissements",
    "Relances clients impayés", "Reporting commercial"],
   ["Facturation", "Relances clients", "Recouvrement", "Excel"],
   "comptabilité", "", ""⟩

/-- Classification the classifier produces for `candPaie`'s extracted text. -/
def caPaie : EnhancedSectorAnalysisResult :=
  detect_enhanced_sector (extract_candidate_text candPaie) "cv"

/-- Classification the classifier produces for `jobFact`'s extracted text. -/
def jaFact : EnhancedSectorAnalysisResult :=
  detect_enhanced_sector (extract_job_text jobFact) "job"

/-- A payroll-manager classification record (fields as produced for a text
containing only `"gestionnaire de paie"`). -/
def clsGestPaie : EnhancedSectorAnalysisResult :=
  ⟨"comptabilite_finance", "paie_social", "gestionnaire_paie", 1, [],
   ["gestionnaire", "paie"], "confirmé", 0, ""⟩

/-- A payroll-assistant classification record: same sub-sector as
`clsGestPaie`, different specific job. -/
def clsAssistPaie : EnhancedSectorAnalysisResult :=
  ⟨"comptabilite_finance", "paie_social", "assistant_paie", 1, [],
   ["assistant", "paie"], "confirmé", 0, ""⟩

/-- A billing-assistant classification record (different sub-sector of the
same sector as `clsGestPaie`). -/
def clsAssistFact : EnhancedSectorAnalysisResult :=
  ⟨"comptabilite_finance", "facturation", "assistant_facturation", 1, [],
   ["assistant", "facturation"], "junior", 0, ""⟩

/-- A recruiter classification record (different primary sector). -/
def clsRecruteur : EnhancedSectorAnalysisResult :=
  ⟨"ressources_humaines", "recrutement", "chargé_recrutement", 1, [],
   ["recruteur"], "confirmé", 0, ""⟩

/-- The sub-sector names declared in `sector_hierarchy`, plus the
`"inconnu"` sub-sector of no-signal classifications. -/
def knownSubSectors : List String :=
  "inconnu" :: sector_hierarchy.flatMap (fun sec => sec.2.map (·.1))

/-- Text for which a qualifying role below rank 3 exists: it matches
`gestionnaire_paie` (6.5), `assistant_facturation` (6.5), `assistant_paie`
(5.0) and `chargé_recrutement` (4.5). -/
def textFourJobs : String :=
  "gestionnaire de paie assistant paie assistant facturation recruteur"

/-- The secondary-sector list described by the claim (spec wording, for
contrast with `detect_enhanced_sector`): the sectors, different from the
primary result's sector, of every other scored role whose score is at
least 30% of the top score, ordered by descending score, capped at 2. -/
def claimedSecondarySectors (text : String) : List String :=
  match sortedDesc (allJobEntries (pyLower text)) with
  | [] => []
  | best :: rest =>
    (((rest.filter (fun d =>
        decide (best.score * 0.3 ≤ d.score) && d.sector != best.sector)).map
        (·.sector)).take 2)

/-- A candidate record whose dict has no `competences` key. -/
def candNoSkills : CandidateData := ⟨"comptable", [], none, "", "", 2, "paris"⟩

/-- A minimal job record. -/
def jobMinimal : JobData := ⟨"comptable", "", [], [], "", "", ""⟩

/-! ### Helper lemmas -/

theorem mem_of_mem_sortInsert {y x : JobScoreEntry} {l : List JobScoreEntry}
    (h : y ∈ sortInsert x l) : y = x ∨ y ∈ l := by
  induction l with
  | nil => simpa [sortInsert] using h
  | cons z zs ih =>
    simp only [sortInsert] at h
    split at h
    · simpa using h
    · rcases List.mem_cons.mp h with h' | h'
      · exact Or.inr (by simp [h'])
      · rcases ih h' with h'' | h''
        · exact Or.inl h''
        · exact Or.inr (List.mem_cons_of_mem _ h'')

theorem foldl_sortInsert_mem {y : JobScoreEntry} :
    ∀ (l acc : List JobScoreEntry),
      y ∈ l.foldl (fun acc x => sortInsert x acc) acc → y ∈ acc ∨ y ∈ l := by
  intro l
  induction l with
  | nil => intro acc h'; exact Or.inl h'
  | cons z zs ih =>
    intro acc h'
    rcases ih (sortInsert z acc) h' with h'' | h''
    · rcases mem_of_mem_sortInsert h'' with h3 | h3
      · exact Or.inr (by simp [h3])
      · exact Or.inl h3
    · exact Or.inr (List.mem_cons_of_mem _ h'')

theorem mem_of_mem_sortedDesc {y : JobScoreEntry} {l : List JobScoreEntry}
    (h : y ∈ sortedDesc l) : y ∈ l := by
  rcases foldl_sortInsert_mem l [] h with h' | h'
  · simp at h'
  · exact h'

theorem scoreJob_score_nonneg {t s ss : String} {jc : JobConfig} {e : JobScoreEntry}
    (h : scoreJob t s ss jc = some e) : 0 ≤ e.score := by
  simp only [scoreJob] at h
  split at h
  · exact absurd h (by simp)
  · split at h
    · exact absurd h (by simp)
    · rw [Option.some_inj] at h
      subst h
      rcases hf : (List.find? (fun li =>
          li.2.any fun ind => pyIn (pyLower ind) t) jc.level_indicators) with _ | li <;>
        simp only [hf] <;> positivity

theorem allJobEntries_score_nonneg {t : String} {e : JobScoreEntry}
    (h : e ∈ allJobEntries t) : 0 ≤ e.score := by
  simp only [allJobEntries, List.mem_flatMap, List.mem_filterMap] at h
  obtain ⟨sec, _, sub, _, jc, _, hj⟩ := h
  exact scoreJob_score_nonneg hj

theorem detect_confidence_bounds (text ctx : String) :
    0 ≤ (detect_enhanced_sector text ctx).confidence ∧
      (detect_enhanced_sector text ctx).confidence ≤ 1 := by
  simp only [detect_enhanced_sector]
  split
  · norm_num [inconnuResult]
  · cases heq : sortedDesc (allJobEntries (pyLower text)) with
    | nil => norm_num [inconnuResult]
    | cons best rest =>
      dsimp only
      have hbest : 0 ≤ best.score :=
        allJobEntries_score_nonneg
          (mem_of_mem_sortedDesc (heq ▸ List.mem_cons_self best rest))
      have hden : (0 : ℚ) ≤ max ((allJobEntries (pyLower text)).map (·.score)).sum 1 :=
        le_trans zero_le_one (le_max_right _ _)
      exact ⟨le_min (by norm_num) (div_nonneg hbest hden),
        le_trans (min_le_left _ _) (by norm_num)⟩

theorem compatibility_bounds (a b : EnhancedSectorAnalysisResult) :
    0 ≤ get_enhanced_compatibility_score a b ∧ get_enhanced_compatibility_score a b ≤ 1 := by
  simp only [get_enhanced_compatibility_score]
  split
  · norm_num
  · exact ⟨le_min (by norm_num) (le_trans (by norm_num) (le_max_left 0.0 _)),
      le_trans (min_le_left _ _) (by norm_num)⟩

theorem matching_score_bounds (c : CandidateData) (j : JobData)
    (ca ja : EnhancedSectorAnalysisResult) :
    0 ≤ calculate_v3_matching_score c j ca ja ∧
      calculate_v3_matching_score c j ca ja ≤ 100 := by
  simp only [calculate_v3_matching_score, normalize_score]
  exact ⟨le_trans (by norm_num) (le_max_left 0.0 _),
    max_le (by norm_num) (le_trans (min_le_left _ _) (by norm_num))⟩

theorem hybrid_score_bounds (e s m : Option ℚ) :
    0 ≤ calculate_hybrid_score e s m ∧ calculate_hybrid_score e s m ≤ 100 := by
  simp only [calculate_hybrid_score]
  exact ⟨le_min (by norm_num) (le_max_left _ _), min_le_left _ _⟩

/-- C5.  Output bounds for all well-typed inputs: the classifier's
confidence lies in [0,1], the compatibility resolver's result lies in
[0,1], the V3 scorer's final match score lies in [0,100], and the hybrid
consensus combiner's combined score lies in [0,100]. -/
theorem C5_output_bounds :
    (∀ text ctx : String, 0 ≤ (detect_enhanced_sector text ctx).confidence ∧
        (detect_enhanced_sector text ctx).confidence ≤ 1) ∧
    (∀ a b : EnhancedSectorAnalysisResult,
        0 ≤ get_enhanced_compatibility_score a b ∧
        get_enhanced_compatibility_score a b ≤ 1) ∧
    (∀ (c : CandidateData) (j : JobData) (ca ja : EnhancedSectorAnalysisResult),
        0 ≤ calculate_v3_matching_score c j ca ja ∧
        calculate_v3_matching_score c j ca ja ≤ 100) ∧
    (∀ e s m : Option ℚ,
        0 ≤ calculate_hybrid_score e s m ∧ calculate_hybrid_score e s m ≤ 100) :=
  ⟨detect_confidence_bounds, compatibility_bounds, matching_score_bounds,
    hybrid_score_bounds⟩

/-- C9.  Identity of compatibility: for every classification `c`, the
compatibility resolver applied to `(c, c)` returns exactly 1.0. -/
theorem C9_identity_compatibility (c : EnhancedSectorAnalysisResult) :
    get_enhanced_compatibility_score c c = 1.0 := by
  simp [get_enhanced_compatibility_score]

/-- C6.  The role-specificity factor: 1.0 for identical specific roles;
`min 1.0 (0.75 + level bonus)` when the roles differ but the sub-sectors
match; 0.50 when only the primary sectors match; 0.25 otherwise. -/
theorem C6_role_specificity (a b : EnhancedSectorAnalysisResult) :
    (a.specific_job = b.specific_job → calculate_job_specificity_match a b = 1.0) ∧
    (a.specific_job ≠ b.specific_job → a.sub_sector = b.sub_sector →
      calculate_job_specificity_match a b =
        min 1.0 (0.75 + calculate_level_compatibility_bonus a.job_level b.job_level)) ∧
    (a.specific_job ≠ b.specific_job → a.sub_sector ≠ b.sub_sector →
      a.primary_sector = b.primary_sector →
      calculate_job_specificity_match a b = 0.50) ∧
    (a.specific_job ≠ b.specific_job → a.sub_sector ≠ b.sub_sector →
      a.primary_sector ≠ b.primary_sector →
      calculate_job_specificity_match a b = 0.25) :=
  ⟨fun h => by simp [calculate_job_specificity_match, h],
   fun h1 h2 => by simp [calculate_job_specificity_match, h1, h2],
   fun h1 h2 h3 => by simp [calculate_job_specificity_match, h1, h2, h3],
   fun h1 h2 h3 => by simp [calculate_job_specificity_match, h1, h2, h3]⟩

/-- Witness for C6: the four cases at concrete classification records. -/
theorem C6_role_specificity_witness :
    calculate_job_specificity_match clsGestPaie clsGestPaie = 1.0 ∧
    calculate_job_specificity_match clsGestPaie clsAssistPaie =
      min 1.0 (0.75 + calculate_level_compatibility_bonus
        clsGestPaie.job_level clsAssistPaie.job_level) ∧
    calculate_job_specificity_match clsGestPaie clsAssistFact = 0.50 ∧
    calculate_job_specificity_match clsGestPaie clsRecruteur = 0.25 :=
  ⟨(C6_role_specificity clsGestPaie clsGestPaie).1 rfl,
   (C6_role_specificity clsGestPaie clsAssistPaie).2.1 (by decide) rfl,
   (C6_role_specificity clsGestPaie clsAssistFact).2.2.1 (by decide) (by decide) rfl,
   (C6_role_specificity clsGestPaie clsRecruteur).2.2.2 (by decide) (by decide) (by decide)⟩

theorem skillsContextBonus_nonneg (ca ja : EnhancedSectorAnalysisResult) :
    0 ≤ skillsContextBonus ca ja := by
  unfold skillsContextBonus
  repeat' split
  all_goals norm_num

theorem skillsQuantityBonus_nonneg (cs js : List String) :
    0 ≤ skillsQuantityBonus cs js := by
  unfold skillsQuantityBonus
  split
  · exact le_min (by norm_num) (by positivity)
  · norm_num

/-- C8.  For a listing with an empty (or absent, hence defaulted-to-empty)
required-skills list, the skills factor is exactly the neutral 0.7; and the
skills computation is a total function with values in [0,1] (in particular
the division by the required-skill count only happens on nonempty lists). -/
theorem C8_skills_neutral_default (candidate_skills job_skills : List String)
    (ca ja : EnhancedSectorAnalysisResult) :
    calculate_v3_skills_match candidate_skills [] ca ja = 0.7 ∧
    0 ≤ calculate_v3_skills_match candidate_skills job_skills ca ja ∧
    calculate_v3_skills_match candidate_skills job_skills ca ja ≤ 1 := by
  refine ⟨by simp [calculate_v3_skills_match], ?_, ?_⟩ <;>
    · by_cases hj : job_skills = []
      · norm_num [calculate_v3_skills_match, hj]
      · by_cases hc : candidate_skills = []
        · norm_num [calculate_v3_skills_match, hj, hc]
        · simp only [calculate_v3_skills_match, if_neg hj, if_neg hc]
          first
          | exact le_min (by norm_num)
              (add_nonneg
                (add_nonneg (div_nonneg (by positivity) (by positivity))
                  (skillsContextBonus_nonneg ca ja))
                (skillsQuantityBonus_nonneg candidate_skills job_skills))
          | exact le_trans (min_le_left _ _) (by norm_num)

theorem matrixGet_swap {s t : String} {v w : ℚ}
    (h1 : matrixGet (s, t) = some v) (h2 : matrixGet (t, s) = some w) : v = w := by
  simp only [matrixGet, Option.map_eq_some'] at h1 h2
  obtain ⟨e1, he1, rfl⟩ := h1
  obtain ⟨e2, he2, rfl⟩ := h2
  have hk1 : e1.1 = (s, t) := by simpa using List.find?_some he1
  have hk2 : e2.1 = (t, s) := by simpa using List.find?_some he2
  have hm1 : e1 ∈ enhanced_compatibility_matrix := List.mem_of_find?_eq_some he1
  have hm2 : e2 ∈ enhanced_compatibility_matrix := List.mem_of_find?_eq_some he2
  clear he1 he2
  obtain ⟨⟨s1, t1⟩, v1⟩ := e1
  obtain ⟨⟨s2, t2⟩, v2⟩ := e2
  simp only [Prod.mk.injEq] at hk1 hk2
  obtain ⟨rfl, rfl⟩ := hk1
  obtain ⟨rfl, rfl⟩ := hk2
  simp only [enhanced_compatibility_matrix, List.mem_cons, List.not_mem_nil,
    or_false, Prod.mk.injEq] at hm1
  rcases hm1 with ⟨⟨rfl, rfl⟩, rfl⟩ | ⟨⟨rfl, rfl⟩, rfl⟩ | ⟨⟨rfl, rfl⟩, rfl⟩ |
    ⟨⟨rfl, rfl⟩, rfl⟩ | ⟨⟨rfl, rfl⟩, rfl⟩ | ⟨⟨rfl, rfl⟩, rfl⟩ | ⟨⟨rfl, rfl⟩, rfl⟩ |
    ⟨⟨rfl, rfl⟩, rfl⟩ | ⟨⟨rfl, rfl⟩, rfl⟩ | ⟨⟨rfl, rfl⟩, rfl⟩ | ⟨⟨rfl, rfl⟩, rfl⟩ |
    ⟨⟨rfl, rfl⟩, rfl⟩ | ⟨⟨rfl, rfl⟩, rfl⟩ | ⟨⟨rfl, rfl⟩, rfl⟩ | ⟨⟨rfl, rfl⟩, rfl⟩ |
    ⟨⟨rfl, rfl⟩, rfl⟩ | ⟨⟨rfl, rfl⟩, rfl⟩ | ⟨⟨rfl, rfl⟩, rfl⟩ | ⟨⟨rfl, rfl⟩, rfl⟩ |
    ⟨⟨rfl, rfl⟩, rfl⟩ | ⟨⟨rfl, rfl⟩, rfl⟩ | ⟨⟨rfl, rfl⟩, rfl⟩ | ⟨⟨rfl, rfl⟩, rfl⟩ |
    ⟨⟨rfl, rfl⟩, rfl⟩ | ⟨⟨rfl, rfl⟩, rfl⟩ | ⟨⟨rfl, rfl⟩, rfl⟩ <;>
  · simp only [enhanced_compatibility_matrix, List.mem_cons, List.not_mem_nil,
      or_false, Prod.mk.injEq] at hm2
    simp_all

theorem baseCompatibility_comm (s t : String) :
    baseCompatibility s t = baseCompatibility t s := by
  unfold baseCompatibility
  cases h1 : matrixGet (s, t) with
  | some v =>
    cases h2 : matrixGet (t, s) with
    | some w => exact matrixGet_swap h1 h2
    | none => rfl
  | none =>
    cases h2 : matrixGet (t, s) with
    | some w => rfl
    | none => rfl

theorem calculate_level_compatibility_comm (a b : String) :
    calculate_level_compatibility a b = calculate_level_compatibility b a := by
  unfold calculate_level_compatibility
  rw [← Int.natAbs_neg (levelRank a - levelRank b), neg_sub]

/-- C10.  The compatibility resolver is commutative: every matrix pair
stored in both orders carries equal coefficients, the lookup falls back to
the reversed pair, and the seniority multiplier and specialization bonus
are symmetric. -/
theorem C10_compatibility_commutative (a b : EnhancedSectorAnalysisResult) :
    get_enhanced_compatibility_score a b = get_enhanced_compatibility_score b a := by
  simp only [get_enhanced_compatibility_score]
  by_cases h : a.specific_job = b.specific_job
  · rw [if_pos h, if_pos h.symm]
  · rw [if_neg h, if_neg (fun hh => h hh.symm), baseCompatibility_comm,
      calculate_level_compatibility_comm, add_comm a.specialization_score]

/-- C1, counterexample.  With only the `enhanced` algorithm present at
score 100, the claim's renormalized weighted average is 100, but the
combiner returns 40 = `int(100 * 0.4)`: the missing algorithms keep their
weights and are zero-filled, not excluded. -/
theorem C1_counterexample :
    calculate_hybrid_score (some 100) none none = 40 ∧
    claimedConsensusCombine (some 100) none none = some 100 ∧
    (40 : ℤ) ≠ 100 := by
  refine ⟨?_, ?_, by decide⟩
  · norm_num [calculate_hybrid_score, pyInt]
  · simp [claimedConsensusCombine, List.filterMap_cons, Option.map_some', Option.map_none']
    norm_num

/-- C1, amended.  The combiner treats a missing algorithm exactly as a
present result with score 0 under the fixed weights 0.4/0.35/0.25 —
zero-fill, with no renormalization — and when every algorithm is missing
it returns the fabricated score 0 rather than a distinguished no-data
result (a job absent from all three result lists is instead silently
skipped upstream, in `_combine_results`). -/
theorem C1_amended (e s m : ℚ) :
    calculate_hybrid_score none (some s) (some m) =
      calculate_hybrid_score (some 0) (some s) (some m) ∧
    calculate_hybrid_score (some e) none (some m) =
      calculate_hybrid_score (some e) (some 0) (some m) ∧
    calculate_hybrid_score (some e) (some s) none =
      calculate_hybrid_score (some e) (some s) (some 0) ∧
    calculate_hybrid_score none none none = 0 := by
  refine ⟨rfl, rfl, rfl, ?_⟩
  norm_num [calculate_hybrid_score, pyInt]

/-- C2, counterexample.  Two classifications with different specific roles
but literally identical sub-sectors (`paie_social`): the lookup step falls
through to the 0.3 default — there is no identity short-circuit on
sub-sectors — and the resolver returns 0.3, not 1.0. -/
theorem C2_counterexample :
    clsGestPaie.specific_job ≠ clsAssistPaie.specific_job ∧
    clsGestPaie.sub_sector = clsAssistPaie.sub_sector ∧
    baseCompatibility clsGestPaie.sub_sector clsAssistPaie.sub_sector = 0.3 ∧
    get_enhanced_compatibility_score clsGestPaie clsAssistPaie = 0.3 ∧
    (0.3 : ℚ) ≠ 1.0 := by
  refine ⟨by decide, rfl, rfl, ?_, by norm_num⟩
  have hbase : baseCompatibility "paie_social" "paie_social" = 0.3 := rfl
  norm_num +decide [get_enhanced_compatibility_score, clsGestPaie, clsAssistPaie, hbase,
    calculate_level_compatibility, levelRank, min_def, max_def]

/-- C2, amended.  When the sub-sectors are identical the lookup step is an
ordinary table lookup: among known sub-sectors only the
`comptabilite_generale` identity pair is stored (with 1.0); every other
identical pair falls through to the 0.3 default. -/
theorem C2_amended (s : String) (hs : s ∈ knownSubSectors) :
    baseCompatibility s s = if s = "comptabilite_generale" then 1.0 else 0.3 := by
  fin_cases hs <;> rfl

/-- Witness for the amended C2 at the `paie_social` sub-sector. -/
theorem C2_amended_witness :
    "paie_social" ∈ knownSubSectors ∧
    baseCompatibility "paie_social" "paie_social" =
      if "paie_social" = "comptabilite_generale" then 1.0 else 0.3 :=
  ⟨by decide, C2_amended "paie_social" (by decide)⟩

/-- C7, counterexample.  Scoring is not free of side effects on its
inputs: for a candidate record without the `competences` key,
`validate_input` (run by `calculate_matches`) adds `competences = []` to
the input dict, so the record observed afterwards differs from the input. -/
theorem C7_counterexample :
    (calculate_matches candNoSkills [jobMinimal]).2 ≠ candNoSkills ∧
    (calculate_matches candNoSkills [jobMinimal]).2.competences = some [] ∧
    candNoSkills.competences = none := by
  have h2 : (calculate_matches candNoSkills [jobMinimal]).2.competences = some [] := rfl
  refine ⟨fun h => ?_, h2, rfl⟩
  rw [h] at h2
  simp [candNoSkills] at h2

/-- C7, amended.  The only mutation the scoring pipeline performs on its
inputs is `validate_input` adding the missing `competences` key (as the
empty list) to the candidate dict: a candidate that already carries the
key is returned unchanged, and job records are only read and copied. -/
theorem C7_amended (c : CandidateData) (l : List String) (js : List JobData) :
    (calculate_matches { c with competences := some l } js).2 =
      { c with competences := some l } ∧
    (js ≠ [] → (calculate_matches { c with competences := none } js).2 =
      { c with competences := some [] }) := by
  constructor
  · cases js <;> rfl
  · intro h
    cases js with
    | nil => exact absurd rfl h
    | cons j js' => rfl

/-- Witness for the amended C7 at concrete records. -/
theorem C7_amended_witness :
    (calculate_matches { candNoSkills with competences := some ["sage"] } [jobMinimal]).2 =
      { candNoSkills with competences := some ["sage"] } ∧
    (calculate_matches { candNoSkills with competences := none } [jobMinimal]).2 =
      { candNoSkills with competences := some [] } :=
  ⟨(C7_amended candNoSkills ["sage"] [jobMinimal]).1,
   (C7_amended candNoSkills ["sage"] [jobMinimal]).2 (by simp)⟩

/-- C4, counterexample.  On `textFourJobs` the classifier scores
`gestionnaire_paie` (6.5, primary), `assistant_facturation` (6.5) and
`assistant_paie` (5.0) — all in sector `comptabilite_finance` — and
`chargé_recrutement` (4.5, sector `ressources_humaines`).  The recruiter
role scores ≥ 30% of the top score and lies in a different sector, so the
claim requires `["ressources_humaines"]`; but the code only inspects the
2nd and 3rd ranked roles and returns `[]`, omitting the qualifying role
because of its rank position. -/
theorem C4_counterexample :
    (detect_enhanced_sector textFourJobs "general").secondary_sectors = [] ∧
    claimedSecondarySectors textFourJobs = ["ressources_humaines"] ∧
    ([] : List String) ≠ ["ressources_humaines"] := by
  refine ⟨?_, ?_, by decide⟩
  · with_unfolding_all decide
  · with_unfolding_all decide

/-- C4, amended.  The returned secondary sectors are exactly the sectors,
different from the primary result's sector, of the **second- and
third-ranked** roles scoring at least 30% of the top score, in descending
score order (hence at most 2 entries); a qualifying role ranked fourth or
later is omitted. -/
theorem C4_amended (text ctx : String) :
    (detect_enhanced_sector text ctx).secondary_sectors =
      match sortedDesc (allJobEntries (pyLower text)) with
      | [] => []
      | best :: rest =>
        ((rest.take 2).filter (fun d =>
          decide (best.score * 0.3 ≤ d.score) && d.sector != best.sector)).map
          (·.sector) := by
  simp only [detect_enhanced_sector]
  split
  · next h => subst h; rfl
  · cases heq : sortedDesc (allJobEntries (pyLower text)) with
    | nil => rfl
    | cons best rest => rfl

set_option maxRecDepth 30000

/-- C3.  Evaluation of the code at the repository's own test input
(`test_v3_validation.py`, case `Gestionnaire_Paie_vs_Assistant_Facturation`,
which asserts `expected_v3_score_max = 30`): the candidate classifies as
`gestionnaire_paie`/`paie_social` and the listing as
`assistant_facturation`/`facturation`, yet `sector_compatibility` is
0.3625 > 0.30 (base coefficient 0.25 × level multiplier 0.85 plus the
specialization bonus 0.15) and the final match score is 46.7625 > 30
(driven by the 0.50 same-sector `job_specificity` floor), contradicting
the claim, the module docstring ("90% → 25%") and the repository's own
test expectation. -/
theorem C3_payroll_billing_divergence :
    caPaie.specific_job = "gestionnaire_paie" ∧
    caPaie.sub_sector = "paie_social" ∧
    jaFact.specific_job = "assistant_facturation" ∧
    jaFact.sub_sector = "facturation" ∧
    get_enhanced_compatibility_score caPaie jaFact = 29 / 80 ∧
    ¬(get_enhanced_compatibility_score caPaie jaFact ≤ 0.30) ∧
    calculate_v3_matching_score candPaie jobFact caPaie jaFact = 3741 / 80 ∧
    ¬(calculate_v3_matching_score candPaie jobFact caPaie jaFact ≤ 30) := by
  have hcompat : get_enhanced_compatibility_score caPaie jaFact = 29 / 80 := by
    with_unfolding_all decide
  have hspec : calculate_job_specificity_match caPaie jaFact = 1 / 2 := by
    with_unfolding_all decide
  have hexp : calculate_v3_experience_relevance candPaie caPaie jaFact (29 / 80) =
      77 / 100 := by
    with_unfolding_all decide
  have hskills : calculate_v3_skills_match (candPaie.competences.getD [])
      jobFact.competences caPaie jaFact = 3 / 25 := by
    with_unfolding_all decide
  have hloc : calculate_location_match candPaie jobFact = 3 / 5 := by
    with_unfolding_all decide
  have hscore : calculate_v3_matching_score candPaie jobFact caPaie jaFact = 3741 / 80 := by
    simp only [calculate_v3_matching_score, calculate_v3_final_score, hcompat, hspec,
      hexp, hskills, hloc, weights_v3_job_specificity_match,
      weights_v3_sector_compatibility, weights_v3_experience_relevance,
      weights_v3_skills_match, weights_v3_location_match, normalize_score]
    norm_num [min_def, max_def]
  refine ⟨?_, ?_, ?_, ?_, hcompat, ?_, hscore, ?_⟩
  · with_unfolding_all decide
  · with_unfolding_all decide
  · with_unfolding_all decide
  · with_unfolding_all decide
  · rw [hcompat]; norm_num
  · rw [hscore]; norm_num

end SuperSmartMatch
